import Mathlib

/-!
Verification development for the AutoBusiness video pipeline.

The definitions below are a shallow embedding of the repository's core:
the checkpoint store (`src/state.py`, class `VideoState`), the stage
functions and the media-assembly algorithm (`src/classes/Video.py`,
class `Video`). Python dicts are modelled as association lists that
preserve insertion order (matching CPython dict semantics), machine
timestamps as abstract `Nat` values supplied by the caller, and the
fallible LLM collaborator as a stream `Nat → String` of responses.
-/

namespace AutoBusiness

/-- A JSON-shaped Python value, as stored in a session's `data` mapping
and as returned by `json.loads` on the subset of JSON the pipeline
exchanges (objects, arrays, strings, integers/decimals as rationals,
booleans, null). -/
inductive PVal where
  | null : PVal
  | bool : Bool → PVal
  | num : ℚ → PVal
  | str : String → PVal
  | list : List PVal → PVal
  | dict : List (String × PVal) → PVal

/-- Run status, the `status` field of a session in `state.py`
(`"initialized" | "in_progress" | "completed" | "failed"`). -/
inductive Status where
  | initialized
  | inProgress
  | completed
  | failed
deriving DecidableEq

/-- One run record, as created by `VideoState.create_video_session`
(`src/state.py:92-113`) and mutated by the save/mark operations.
Fields that the code only sets later are `Option`s. -/
structure Session where
  id : String
  niche : String
  language : String
  createdAt : Nat
  status : Status
  stepsCompleted : List String
  data : List (String × PVal)
  lastUpdated : Option Nat
  videoPath : Option String
  completedAt : Option Nat
  errorMsg : Option String
  failedAt : Option Nat

/-- The persisted document: a mapping run-id → session, modelled as an
insertion-ordered association list (CPython dict). -/
abbrev Store : Type := List (String × Session)

/-- Python `self._state.get(session_id)` / `session_id in self._state`:
first (unique) matching key wins. -/
def findSession : Store → String → Option Session
  | [], _ => none
  | p :: t, sid => if p.1 = sid then some p.2 else findSession t sid

/-- In-place update of one session (Python mutates the dict entry;
keys are unique, so updating every equal key is the same thing). -/
def updateSession : Store → String → (Session → Session) → Store
  | [], _, _ => []
  | p :: t, sid, f =>
      (if p.1 = sid then (p.1, f p.2) else p) :: updateSession t sid f

/-- Python dict assignment `d[k] = v` on an insertion-ordered dict:
replace in place if the key exists, else append. -/
def assocSet (l : List (String × PVal)) (k : String) (v : PVal) :
    List (String × PVal) :=
  if l.any (fun p => p.1 = k) then
    l.map (fun p => if p.1 = k then (k, v) else p)
  else l ++ [(k, v)]

/-- Python `d.get(k)` on the `data` dict. -/
def assocGet (l : List (String × PVal)) (k : String) : Option PVal :=
  (l.find? (fun p => p.1 = k)).map (·.2)

/-- `VideoState.save_step_result` (`src/state.py:115-132`): if the
session id is unknown, log and return (no-op); otherwise append `step`
to `steps_completed`, set `data[step]`, set status to `"in_progress"`
(unconditionally — the code has no terminal-status guard), and stamp
`last_updated`. -/
def saveStepResult (st : Store) (sid step : String) (d : PVal) (now : Nat) :
    Store :=
  match findSession st sid with
  | none => st
  | some _ =>
      updateSession st sid (fun s =>
        { s with
          stepsCompleted := s.stepsCompleted ++ [step]
          data := assocSet s.data step d
          status := Status.inProgress
          lastUpdated := some now })

/-- `VideoState.mark_completed` (`src/state.py:134-149`): no-op on an
unknown id, else set status `"completed"`, `video_path`, `completed_at`. -/
def markCompleted (st : Store) (sid path : String) (now : Nat) : Store :=
  match findSession st sid with
  | none => st
  | some _ =>
      updateSession st sid (fun s =>
        { s with
          status := Status.completed
          videoPath := some path
          completedAt := some now })

/-- `VideoState.mark_failed` (`src/state.py:151-166`): no-op on an
unknown id, else set status `"failed"`, `error`, `failed_at`. -/
def markFailed (st : Store) (sid msg : String) (now : Nat) : Store :=
  match findSession st sid with
  | none => st
  | some _ =>
      updateSession st sid (fun s =>
        { s with
          status := Status.failed
          errorMsg := some msg
          failedAt := some now })

/-- `VideoState.create_video_session` (`src/state.py:92-113`): fresh
record with status `"initialized"`, empty `steps_completed` and `data`. -/
def createVideoSession (st : Store) (sid niche language : String) (now : Nat) :
    Store :=
  st ++ [(sid,
    { id := sid
      niche := niche
      language := language
      createdAt := now
      status := Status.initialized
      stepsCompleted := []
      data := []
      lastUpdated := none
      videoPath := none
      completedAt := none
      errorMsg := none
      failedAt := none })]

/-- Looking a session up after an in-place update of that same id. -/
theorem findSession_updateSession (st : Store) (sid : String)
    (f : Session → Session) :
    findSession (updateSession st sid f) sid = (findSession st sid).map f := by
  induction st with
  | nil => rfl
  | cons p t ih =>
    by_cases h : p.1 = sid
    · simp [findSession, updateSession, h]
    · simp [findSession, updateSession, h, ih]

/-- An in-place update of one id leaves every other id's session alone. -/
theorem findSession_updateSession_ne (st : Store) (sid sid' : String)
    (f : Session → Session) (hne : sid' ≠ sid) :
    findSession (updateSession st sid f) sid' = findSession st sid' := by
  induction st with
  | nil => rfl
  | cons p t ih =>
    by_cases h : p.1 = sid
    · have h3 : ¬ p.1 = sid' := fun hc => hne (by rw [← hc, h])
      have h4 : ¬ sid = sid' := fun hc => hne hc.symm
      simp [findSession, updateSession, h, h3, h4, ih]
    · by_cases h3 : p.1 = sid'
      · simp [findSession, updateSession, h, h3, hne]
      · simp [findSession, updateSession, h, h3, ih]

/-- The session recorded after a (known-id) `save_step_result`. -/
theorem findSession_saveStepResult (st : Store) (sid step : String) (d : PVal)
    (now : Nat) (s : Session) (h : findSession st sid = some s) :
    findSession (saveStepResult st sid step d now) sid =
      some { s with
        stepsCompleted := s.stepsCompleted ++ [step]
        data := assocSet s.data step d
        status := Status.inProgress
        lastUpdated := some now } := by
  simp [saveStepResult, h, findSession_updateSession]

/-- The session recorded after a (known-id) `mark_failed`. -/
theorem findSession_markFailed (st : Store) (sid msg : String) (now : Nat)
    (s : Session) (h : findSession st sid = some s) :
    findSession (markFailed st sid msg now) sid =
      some { s with
        status := Status.failed
        errorMsg := some msg
        failedAt := some now } := by
  simp [markFailed, h, findSession_updateSession]

/-- The session recorded after a (known-id) `mark_completed`. -/
theorem findSession_markCompleted (st : Store) (sid path : String) (now : Nat)
    (s : Session) (h : findSession st sid = some s) :
    findSession (markCompleted st sid path now) sid =
      some { s with
        status := Status.completed
        videoPath := some path
        completedAt := some now } := by
  simp [markCompleted, h, findSession_updateSession]

/-! ### Concrete fixtures used by closed counterexamples and witnesses -/

/-- A freshly created session, as `create_video_session` builds it. -/
def sessFresh : Session :=
  { id := "run-1"
    niche := "tech"
    language := "en"
    createdAt := 0
    status := Status.initialized
    stepsCompleted := []
    data := []
    lastUpdated := none
    videoPath := none
    completedAt := none
    errorMsg := none
    failedAt := none }

/-- A session that has reached the terminal `completed` state. -/
def sessDone : Session :=
  { sessFresh with
    id := "run-2"
    status := Status.completed
    stepsCompleted := ["topic", "script"]
    data := [("topic", PVal.dict [("subject", PVal.str "cats")])]
    lastUpdated := some 3
    videoPath := some "/videos/v.mp4"
    completedAt := some 9 }

/-- C1 (counterexample): on the concrete store holding one `completed`
run, a subsequent `save_step_result` for stage `"script"` is NOT
rejected: it writes `data["script"]` (previously absent), appends
`"script"` to `steps_completed`, and moves `status` backward from
`completed` to `in_progress`. This refutes the claim that a save on a
terminal run is rejected or has no observable effect. -/
theorem save_step_after_completed_mutates_run :
    (findSession (saveStepResult [("run-2", sessDone)] "run-2" "script"
        (PVal.dict [("content", PVal.str "s")]) 10) "run-2").map Session.status
      = some Status.inProgress ∧
    (findSession (saveStepResult [("run-2", sessDone)] "run-2" "script"
        (PVal.dict [("content", PVal.str "s")]) 10) "run-2").map
        (fun s => assocGet s.data "script")
      = some (some (PVal.dict [("content", PVal.str "s")])) ∧
    (findSession (saveStepResult [("run-2", sessDone)] "run-2" "script"
        (PVal.dict [("content", PVal.str "s")]) 10) "run-2").map
        Session.stepsCompleted
      = some ["topic", "script", "script"] ∧
    (findSession [("run-2", sessDone)] "run-2").map Session.status
      = some Status.completed ∧
    (findSession [("run-2", sessDone)] "run-2").map
        (fun s => assocGet s.data "script") = some none :=
  ⟨rfl, rfl, rfl, rfl, rfl⟩

/-- C1 (amended): `save_step_result` on a run in a terminal state
(`completed` or `failed`) is applied, not rejected: it appends the
stage to `steps_completed`, sets `data[stage]`, and resets `status` to
`in_progress`, moving the run backward out of the terminal state
(`src/state.py:115-132` has no terminal-status guard). -/
theorem save_step_on_terminal_run_is_applied (st : Store) (sid step : String)
    (d : PVal) (now : Nat) (s : Session)
    (hfind : findSession st sid = some s)
    (hterm : s.status = Status.completed ∨ s.status = Status.failed) :
    ∃ s', findSession (saveStepResult st sid step d now) sid = some s' ∧
      s'.status = Status.inProgress ∧
      s'.stepsCompleted = s.stepsCompleted ++ [step] ∧
      s'.data = assocSet s.data step d :=
  ⟨_, findSession_saveStepResult st sid step d now s hfind, rfl, rfl, rfl⟩

/-- Witness for the amended C1 theorem at a concrete completed run. -/
theorem save_step_on_terminal_run_is_applied_witness :
    ∃ s', findSession (saveStepResult [("run-2", sessDone)] "run-2" "script"
        (PVal.dict [("content", PVal.str "s")]) 10) "run-2" = some s' ∧
      s'.status = Status.inProgress ∧
      s'.stepsCompleted = sessDone.stepsCompleted ++ ["script"] ∧
      s'.data = assocSet sessDone.data "script"
        (PVal.dict [("content", PVal.str "s")]) :=
  save_step_on_terminal_run_is_applied [("run-2", sessDone)] "run-2" "script"
    (PVal.dict [("content", PVal.str "s")]) 10 sessDone rfl (Or.inl rfl)

/-- C9: for a run id not present in the store, `save_step_result`,
`mark_completed` and `mark_failed` all return the store completely
unchanged (`src/state.py:123-126`, `141-144`, `158-161`); being total
Lean functions, they raise nothing. -/
theorem unknown_run_id_ops_are_noops (st : Store) (sid : String)
    (step : String) (d : PVal) (path msg : String) (now : Nat)
    (h : findSession st sid = none) :
    saveStepResult st sid step d now = st ∧
    markCompleted st sid path now = st ∧
    markFailed st sid msg now = st := by
  refine ⟨?_, ?_, ?_⟩ <;> simp [saveStepResult, markCompleted, markFailed, h]

/-- Witness for C9 on a concrete store that does not contain the id. -/
theorem unknown_run_id_ops_are_noops_witness :
    saveStepResult [("run-2", sessDone)] "missing" "topic" PVal.null 5
        = [("run-2", sessDone)] ∧
    markCompleted [("run-2", sessDone)] "missing" "/v.mp4" 5
        = [("run-2", sessDone)] ∧
    markFailed [("run-2", sessDone)] "missing" "boom" 5
        = [("run-2", sessDone)] :=
  unknown_run_id_ops_are_noops [("run-2", sessDone)] "missing" "topic"
    PVal.null "/v.mp4" "boom" 5 rfl

/-- C10: `mark_failed` on an existing run changes only `status`,
`error` and `failed_at`; `id`, `niche`, `language`, `created_at`,
`steps_completed`, `data`, `video_path`, `last_updated` and
`completed_at` are all left exactly as they were
(`src/state.py:151-166` assigns only the three fields). -/
theorem mark_failed_modifies_only_failure_fields (st : Store)
    (sid msg : String) (now : Nat) (s : Session)
    (h : findSession st sid = some s) :
    ∃ s', findSession (markFailed st sid msg now) sid = some s' ∧
      s'.status = Status.failed ∧ s'.errorMsg = some msg ∧
      s'.failedAt = some now ∧
      s'.id = s.id ∧ s'.niche = s.niche ∧ s'.language = s.language ∧
      s'.createdAt = s.createdAt ∧
      s'.stepsCompleted = s.stepsCompleted ∧ s'.data = s.data ∧
      s'.videoPath = s.videoPath ∧ s'.lastUpdated = s.lastUpdated ∧
      s'.completedAt = s.completedAt :=
  ⟨_, findSession_markFailed st sid msg now s h,
    rfl, rfl, rfl, rfl, rfl, rfl, rfl, rfl, rfl, rfl, rfl, rfl⟩

/-- Witness for C10 on a concrete run carrying checkpoints and a
video path. -/
theorem mark_failed_modifies_only_failure_fields_witness :
    ∃ s', findSession (markFailed [("run-2", sessDone)] "run-2" "oops" 11)
        "run-2" = some s' ∧
      s'.status = Status.failed ∧ s'.errorMsg = some "oops" ∧
      s'.failedAt = some 11 ∧
      s'.id = sessDone.id ∧ s'.niche = sessDone.niche ∧
      s'.language = sessDone.language ∧
      s'.createdAt = sessDone.createdAt ∧
      s'.stepsCompleted = sessDone.stepsCompleted ∧
      s'.data = sessDone.data ∧
      s'.videoPath = sessDone.videoPath ∧
      s'.lastUpdated = sessDone.lastUpdated ∧
      s'.completedAt = sessDone.completedAt :=
  mark_failed_modifies_only_failure_fields [("run-2", sessDone)] "run-2"
    "oops" 11 sessDone rfl

/-! ### Media assembler: image validation phase of `Video.combine`
(`src/classes/Video.py:519-538`) -/

/-- Outcome of the validation phase of `Video.combine`: either the run
is failed because no image survived filtering, or assembly proceeds
with the surviving image list. -/
inductive CombineStart where
  | failedNoImages : Store → CombineStart
  | proceed : List String → Store → CombineStart

/-- `Video.combine`, lines 519-538: filter `self.images` down to the
paths that exist on disk and open as an `ImageClip` (both external
effects, abstracted as the predicate `loadsOk`); if none survive, log,
`mark_failed` the session with the exact message from line 537, and
return `None` before any video is produced. -/
def combineStart (loadsOk : String → Bool) (images : List String)
    (st : Store) (sid : String) (now : Nat) : CombineStart :=
  let validImages := images.filter loadsOk
  if validImages.isEmpty then
    CombineStart.failedNoImages
      (markFailed st sid "No valid images found to create video" now)
  else
    CombineStart.proceed validImages st

/-- C8: if zero images survive the exists-and-opens filter, `combine`
fails the run: the session's status becomes `failed` with the error
message, the `video_path` field stays unset, and no video is produced
(the function returns before rendering; `mark_completed` — the only
writer of `video_path` — is never reached). -/
theorem combine_zero_valid_images_fails_run (loadsOk : String → Bool)
    (images : List String) (st : Store) (sid : String) (now : Nat)
    (s : Session) (hfind : findSession st sid = some s)
    (hzero : images.filter loadsOk = [])
    (hnovid : s.videoPath = none) :
    ∃ st', combineStart loadsOk images st sid now
        = CombineStart.failedNoImages st' ∧
      ∃ s', findSession st' sid = some s' ∧
        s'.status = Status.failed ∧
        s'.errorMsg = some "No valid images found to create video" ∧
        s'.videoPath = none := by
  refine ⟨markFailed st sid "No valid images found to create video" now,
    by simp [combineStart, hzero], ?_⟩
  refine ⟨_, findSession_markFailed st sid _ now s hfind, rfl, rfl, ?_⟩
  simpa using hnovid

/-- Witness for C8: a store with one fresh run and two images that
both fail to load. -/
theorem combine_zero_valid_images_fails_run_witness :
    ∃ st', combineStart (fun _ => false) ["/a.png", "/b.png"]
        [("run-1", sessFresh)] "run-1" 7
        = CombineStart.failedNoImages st' ∧
      ∃ s', findSession st' "run-1" = some s' ∧
        s'.status = Status.failed ∧
        s'.errorMsg = some "No valid images found to create video" ∧
        s'.videoPath = none :=
  combine_zero_valid_images_fails_run (fun _ => false) ["/a.png", "/b.png"]
    [("run-1", sessFresh)] "run-1" 7 sessFresh rfl rfl rfl

/-! ### Checkpoint traffic of one uninterrupted successful run
(`Video.generate_video`, `src/classes/Video.py:657-714`, with the G4F
image backend `generate_image_g4f`, lines 296-381) -/

/-- `session["data"].get("images", \x7b\x7d).get("paths", [])` as read
by `generate_image_g4f` (`src/classes/Video.py:353-354`). The store is
well-typed in every reachable state: `data["images"]["paths"]` is
always a list when present. -/
def storedImagePaths (st : Store) (sid : String) : List PVal :=
  match findSession st sid with
  | none => []
  | some s =>
      match assocGet s.data "images" with
      | some (PVal.dict kvs) =>
          match (kvs.find? (fun p => p.1 = "paths")).map (·.2) with
          | some (PVal.list l) => l
          | _ => []
      | _ => []

/-- The image-generation loop of a fresh run under the G4F backend:
for each successfully generated image, `generate_image_g4f` re-reads
the saved path list, appends the new temp path, and calls
`save_step_result(sid, "images", ...)` (`src/classes/Video.py:350-358`)
— one checkpoint write per image. -/
def imagesLoop (st : Store) (sid : String) (paths : List String) (now : Nat) :
    Store :=
  paths.foldl (fun acc p =>
    saveStepResult acc sid "images"
      (PVal.dict [("paths",
        PVal.list (storedImagePaths acc sid ++ [PVal.str p]))]) now) st

/-- The checkpoint writes of one uninterrupted, fully successful
`generate_video` run on a fresh session: one `save_step_result` each
for `topic` (line 127), `script` (187), `metadata` (221),
`image_prompts` (288), then the per-image saves of the G4F loop
(350-358), the post-loop `images` save (698), the `tts` save (474),
and finally `mark_completed` in `combine` (653). -/
def pipelineRun (st : Store) (sid : String) (topicS scriptS : String)
    (meta : PVal) (prompts : List String) (imgPaths : List String)
    (ttsPath vidPath : String) (now : Nat) : Store :=
  let st1 := saveStepResult st sid "topic"
    (PVal.dict [("subject", PVal.str topicS)]) now
  let st2 := saveStepResult st1 sid "script"
    (PVal.dict [("content", PVal.str scriptS)]) now
  let st3 := saveStepResult st2 sid "metadata" meta now
  let st4 := saveStepResult st3 sid "image_prompts"
    (PVal.dict [("prompts", PVal.list (prompts.map PVal.str))]) now
  let st5 := imagesLoop st4 sid imgPaths now
  let st6 := saveStepResult st5 sid "images"
    (PVal.dict [("paths", PVal.list (imgPaths.map PVal.str)),
                ("completed", PVal.bool true)]) now
  let st7 := saveStepResult st6 sid "tts"
    (PVal.dict [("path", PVal.str ttsPath)]) now
  markCompleted st7 sid vidPath now

/-- After the image loop, the session still exists and its
`steps_completed` has grown by one `"images"` entry per generated
image. -/
theorem imagesLoop_stepsCompleted (paths : List String) (st : Store)
    (sid : String) (now : Nat) (s : Session)
    (h : findSession st sid = some s) :
    ∃ s', findSession (imagesLoop st sid paths now) sid = some s' ∧
      s'.stepsCompleted
        = s.stepsCompleted ++ List.replicate paths.length "images" := by
  induction paths generalizing st s with
  | nil => exact ⟨s, by simpa [imagesLoop] using h, by simp⟩
  | cons p ps ih =>
    have hstep := findSession_saveStepResult st sid "images"
      (PVal.dict [("paths",
        PVal.list (storedImagePaths st sid ++ [PVal.str p]))]) now s h
    have hloop := ih _ _ hstep
    obtain ⟨s', hfind', hsteps'⟩ := hloop
    refine ⟨s', ?_, ?_⟩
    · simpa [imagesLoop] using hfind'
    · rw [hsteps']
      simp [List.replicate_succ]

/-- C5 (counterexample): a concrete uninterrupted run on a fresh
session with two image prompts, both of which succeed, appends
`"images"` to `steps_completed` three times (one incremental save per
image plus the post-loop save), not once — with no validation failure
involved. -/
theorem images_stage_saved_three_times_for_two_images :
    (findSession (pipelineRun [("run-1", sessFresh)] "run-1" "t" "s"
        (PVal.dict [("title", PVal.str "T"), ("description", PVal.str "D")])
        ["p1", "p2"] ["/i1.png", "/i2.png"] "/tts.wav" "/v.mp4" 4)
      "run-1").map (fun s => s.stepsCompleted.count "images") = some 3 ∧
    (3 : Nat) ≠ 1 := by
  constructor
  · rfl
  · decide

/-- C5 (amended): in one uninterrupted successful run on a fresh
session, the stages `topic`, `script`, `metadata`, `image_prompts` and
`tts` are each written by exactly one `save_step_result` call, but
under the G4F image backend the `images` stage is written once per
generated image plus once after the loop: with `k` images,
`steps_completed` ends as
`[topic, script, metadata, image_prompts] ++ (k copies of images) ++
[images, tts]`, so `images` is counted `k + 1` times. -/
theorem pipeline_checkpoint_write_counts (st : Store) (sid : String)
    (topicS scriptS : String) (meta : PVal) (prompts : List String)
    (imgPaths : List String) (ttsPath vidPath : String) (now : Nat)
    (s : Session) (h : findSession st sid = some s)
    (hfresh : s.stepsCompleted = []) :
    ∃ s', findSession (pipelineRun st sid topicS scriptS meta prompts
        imgPaths ttsPath vidPath now) sid = some s' ∧
      s'.stepsCompleted
        = ["topic", "script", "metadata", "image_prompts"]
          ++ List.replicate imgPaths.length "images" ++ ["images", "tts"] ∧
      s'.stepsCompleted.count "images" = imgPaths.length + 1 ∧
      s'.stepsCompleted.count "topic" = 1 ∧
      s'.stepsCompleted.count "script" = 1 ∧
      s'.stepsCompleted.count "metadata" = 1 ∧
      s'.stepsCompleted.count "image_prompts" = 1 ∧
      s'.stepsCompleted.count "tts" = 1 := by
  have h1 := findSession_saveStepResult st sid "topic"
    (PVal.dict [("subject", PVal.str topicS)]) now s h
  have h2 := findSession_saveStepResult _ sid "script"
    (PVal.dict [("content", PVal.str scriptS)]) now _ h1
  have h3 := findSession_saveStepResult _ sid "metadata" meta now _ h2
  have h4 := findSession_saveStepResult _ sid "image_prompts"
    (PVal.dict [("prompts", PVal.list (prompts.map PVal.str))]) now _ h3
  obtain ⟨s5, h5, hsteps5⟩ := imagesLoop_stepsCompleted imgPaths _ sid now _ h4
  have h6 := findSession_saveStepResult _ sid "images"
    (PVal.dict [("paths", PVal.list (imgPaths.map PVal.str)),
                ("completed", PVal.bool true)]) now _ h5
  have h7 := findSession_saveStepResult _ sid "tts"
    (PVal.dict [("path", PVal.str ttsPath)]) now _ h6
  have h8 := findSession_markCompleted _ sid vidPath now _ h7
  refine ⟨_, h8, ?_⟩
  simp only [hfresh] at hsteps5
  constructor
  · simp [hsteps5, List.append_assoc]
  · simp [hsteps5, List.count_append, List.count_replicate, List.count_cons,
      List.count_nil]

/-- Witness for the amended C5 theorem: fresh run, two images. -/
theorem pipeline_checkpoint_write_counts_witness :
    ∃ s', findSession (pipelineRun [("run-1", sessFresh)] "run-1" "t" "s"
        (PVal.dict [("title", PVal.str "T"), ("description", PVal.str "D")])
        ["p1", "p2"] ["/i1.png", "/i2.png"] "/tts.wav" "/v.mp4" 4)
      "run-1" = some s' ∧
      s'.stepsCompleted
        = ["topic", "script", "metadata", "image_prompts"]
          ++ List.replicate (["/i1.png", "/i2.png"] : List String).length
              "images" ++ ["images", "tts"] ∧
      s'.stepsCompleted.count "images"
        = (["/i1.png", "/i2.png"] : List String).length + 1 ∧
      s'.stepsCompleted.count "topic" = 1 ∧
      s'.stepsCompleted.count "script" = 1 ∧
      s'.stepsCompleted.count "metadata" = 1 ∧
      s'.stepsCompleted.count "image_prompts" = 1 ∧
      s'.stepsCompleted.count "tts" = 1 :=
  pipeline_checkpoint_write_counts [("run-1", sessFresh)] "run-1" "t" "s"
    (PVal.dict [("title", PVal.str "T"), ("description", PVal.str "D")])
    ["p1", "p2"] ["/i1.png", "/i2.png"] "/tts.wav" "/v.mp4" 4 sessFresh
    rfl rfl

/-! ### The script stage (`Video.generate_script`,
`src/classes/Video.py:133-191`) -/

/-- `re.sub(r"\*", "", completion)` (`src/classes/Video.py:172`):
delete every `*` character. -/
def stripStars (s : String) : String :=
  String.mk (s.data.filter (fun c => c ≠ '*'))

/-- The resume check `if session and "script" in session["data"]`
(`src/classes/Video.py:141-142`). -/
def hasScriptCheckpoint (st : Store) (sid : String) : Bool :=
  match findSession st sid with
  | some s => s.data.any (fun p => p.1 = "script")
  | none => false

/-- `session["data"]["script"]["content"]` as read on resume
(`src/classes/Video.py:143`); the store is well-typed in every
reachable state, so the fallthrough cases are never hit. -/
def resumedScript (st : Store) (sid : String) : String :=
  match findSession st sid with
  | some s =>
      match assocGet s.data "script" with
      | some (PVal.dict kvs) =>
          match (kvs.find? (fun p => p.1 = "content")).map (·.2) with
          | some (PVal.str c) => c
          | _ => ""
      | _ => ""
  | none => ""

/-- Outcome of one `generate_script` invocation chain: the script was
taken from a prior checkpoint, or freshly accepted and checkpointed,
or the run was marked failed (empty completion), or the permitted
number of recursive re-invocations was exhausted without settling
(the code itself imposes no bound: `outOfFuel` records that the chain
was still re-invoking when the observation window `fuel` closed). -/
inductive ScriptResult where
  | resumed : String → ScriptResult
  | saved : String → Store → ScriptResult
  | failedRun : Store → ScriptResult
  | outOfFuel : ScriptResult

/-- `Video.generate_script`: resume from a `"script"` checkpoint if one
exists (lines 141-144); otherwise call the collaborator (`collab k` is
the k-th response), strip `*` (line 172), `mark_failed` on an empty
result (lines 174-177), recurse on a result longer than 5000
characters (lines 179-182, `return self.generate_script()` — no retry
counter), else checkpoint and return (lines 184-191). -/
def generateScript (collab : Nat → String) (st : Store) (sid : String)
    (now : Nat) : Nat → Nat → ScriptResult
  | _, 0 => ScriptResult.outOfFuel
  | k, fuel + 1 =>
      if hasScriptCheckpoint st sid then
        ScriptResult.resumed (resumedScript st sid)
      else
        let completion := stripStars (collab k)
        if completion = "" then
          ScriptResult.failedRun
            (markFailed st sid "Failed to generate script" now)
        else if completion.length > 5000 then
          generateScript collab st sid now (k + 1) fuel
        else
          ScriptResult.saved completion
            (saveStepResult st sid "script"
              (PVal.dict [("content", PVal.str completion)]) now)

/-- Star-stripping leaves no `*` in the result. -/
theorem stripStars_no_star (s : String) : '*' ∉ (stripStars s).data := by
  simp [stripStars, List.mem_filter]

/-- If every collaborator response is over-long after stripping and no
script checkpoint exists, `generate_script` never settles: whatever
number of re-invocations we allow, it is still re-invoking at the end,
and in particular never calls `mark_failed` and never checkpoints. -/
theorem generateScript_allLong_outOfFuel (collab : Nat → String)
    (st : Store) (sid : String) (now : Nat)
    (hlong : ∀ j, 5000 < (stripStars (collab j)).length)
    (hnockpt : hasScriptCheckpoint st sid = false) :
    ∀ fuel k, generateScript collab st sid now k fuel
      = ScriptResult.outOfFuel := by
  intro fuel
  induction fuel with
  | zero => intro k; rfl
  | succ n ih =>
    intro k
    have h1 : ¬ stripStars (collab k) = "" := by
      intro hc
      have := hlong k
      rw [hc] at this
      simp at this
    have h2 : (stripStars (collab k)).length > 5000 := hlong k
    simp only [generateScript, hnockpt, Bool.false_eq_true, if_false, h1,
      if_neg h1, h2, if_pos h2]
    exact ih (k + 1)

/-- A collaborator that always answers with 5001 `a` characters — a
syntactically fine script that is over the 5000-character limit every
single time. -/
def longCollab : Nat → String :=
  fun _ => String.mk (List.replicate 5001 'a')

/-- Filtering keeps a replicated element that satisfies the predicate. -/
theorem filter_replicate_keep {α : Type} (p : α → Bool) (a : α) (n : Nat)
    (h : p a = true) :
    List.filter p (List.replicate n a) = List.replicate n a := by
  induction n with
  | zero => rfl
  | succ m ih => simp [List.replicate_succ, List.filter_cons, h, ih]

/-- The always-long collaborator's responses stay over-long after
star-stripping. -/
theorem longCollab_long (j : Nat) : 5000 < (stripStars (longCollab j)).length := by
  have h : List.filter (fun c => decide (c ≠ '*')) (List.replicate 5001 'a')
      = List.replicate 5001 'a' :=
    filter_replicate_keep _ 'a' 5001 (by decide)
  show 5000 < ((List.replicate 5001 'a').filter
    (fun c => decide (c ≠ '*'))).length
  rw [h, List.length_replicate]
  omega

/-- C3 (counterexample): on a fresh run whose collaborator returns an
over-5000-character script on every call, `generate_script` is still
re-invoking itself after 50 allowed invocations — far beyond the
3-attempt collaborator retry budget the claim appeals to — and in
those 50 invocations it has neither called `mark_failed` nor stopped
the run: the recursion at `src/classes/Video.py:182` carries no retry
counter at all. -/
theorem script_rejection_retries_exceed_any_budget :
    generateScript longCollab [("run-1", sessFresh)] "run-1" 9 0 50
      = ScriptResult.outOfFuel :=
  generateScript_allLong_outOfFuel longCollab [("run-1", sessFresh)]
    "run-1" 9 longCollab_long rfl 50 0

/-- C3 (amended): when validation rejects a result (script longer than
5000 characters), `generate_script` re-invokes itself recursively with
no bound of its own and never calls `mark_failed` for repeated
over-length results: for every number of allowed re-invocations, a
collaborator that always produces an over-long script leaves the stage
still re-invoking (`outOfFuel`), with no `mark_failed` and no
checkpoint. Termination relies on the collaborator eventually
producing an acceptable script (or, in CPython, on the interpreter
recursion limit aborting the run via the `generate_video` exception
handler). -/
theorem script_rejection_retry_is_unbounded (collab : Nat → String)
    (st : Store) (sid : String) (now : Nat)
    (hlong : ∀ j, 5000 < (stripStars (collab j)).length)
    (hnockpt : hasScriptCheckpoint st sid = false)
    (fuel k : Nat) :
    generateScript collab st sid now k fuel = ScriptResult.outOfFuel :=
  generateScript_allLong_outOfFuel collab st sid now hlong hnockpt fuel k

/-- Witness for the amended C3 theorem at a concrete fresh run and 7
allowed re-invocations. -/
theorem script_rejection_retry_is_unbounded_witness :
    generateScript longCollab [("run-1", sessFresh)] "run-1" 9 0 7
      = ScriptResult.outOfFuel :=
  script_rejection_retry_is_unbounded longCollab [("run-1", sessFresh)]
    "run-1" 9 longCollab_long rfl 7 0

/-- C7: whatever the collaborator does, any script that
`generate_script` accepts and checkpoints is non-empty, contains no
`*` character (all were stripped at `src/classes/Video.py:172`), is at
most 5000 characters long after stripping, and is exactly the payload
written by the single `save_step_result` call (lines 187-189). -/
theorem script_checkpoint_is_validated (collab : Nat → String)
    (st : Store) (sid : String) (now k fuel : Nat) (s : String)
    (st' : Store)
    (h : generateScript collab st sid now k fuel
      = ScriptResult.saved s st') :
    s ≠ "" ∧ s.length ≤ 5000 ∧ '*' ∉ s.data ∧
    st' = saveStepResult st sid "script"
      (PVal.dict [("content", PVal.str s)]) now := by
  induction fuel generalizing k with
  | zero => exact absurd h (by simp [generateScript])
  | succ n ih =>
    rw [generateScript] at h
    by_cases hck : hasScriptCheckpoint st sid
    · rw [if_pos hck] at h
      exact absurd h (by simp)
    · rw [if_neg hck] at h
      by_cases hemp : stripStars (collab k) = ""
      · rw [if_pos hemp] at h
        exact absurd h (by simp)
      · rw [if_neg hemp] at h
        by_cases hlen : (stripStars (collab k)).length > 5000
        · rw [if_pos hlen] at h
          exact ih (k + 1) h
        · rw [if_neg hlen] at h
          obtain ⟨hs, hst⟩ := ScriptResult.saved.inj h
          subst hs
          subst hst
          exact ⟨hemp, by omega, stripStars_no_star _, rfl⟩

/-- Witness for C7: a well-behaved collaborator whose first response
is accepted and checkpointed. -/
theorem script_checkpoint_is_validated_witness :
    "A short script." ≠ "" ∧ ("A short script." : String).length ≤ 5000 ∧
    '*' ∉ ("A short script." : String).data ∧
    saveStepResult [("run-1", sessFresh)] "run-1" "script"
        (PVal.dict [("content", PVal.str "A short script.")]) 9
      = saveStepResult [("run-1", sessFresh)] "run-1" "script"
        (PVal.dict [("content", PVal.str "A short script.")]) 9 :=
  script_checkpoint_is_validated (fun _ => "A short script.")
    [("run-1", sessFresh)] "run-1" 9 0 1 "A short script."
    (saveStepResult [("run-1", sessFresh)] "run-1" "script"
      (PVal.dict [("content", PVal.str "A short script.")]) 9) rfl

/-! ### Assembly tiling loop (`Video.combine`,
`src/classes/Video.py:540-597` and `629-631`), in exact rational
arithmetic -/

/-- One pass of the inner `for image_path in valid_images` loop
(lines 560-590) on the success path: each image yields one clip of
duration `req_dur` (line 563), appended in list order, and
`tot_dur += clip.duration` (line 586). -/
def tilePass (imgs : List String) (reqDur : ℚ)
    (acc : List (String × ℚ) × ℚ) : List (String × ℚ) × ℚ :=
  imgs.foldl (fun a img => (a.1 ++ [(img, reqDur)], a.2 + reqDur)) acc

/-- The outer `while tot_dur < max_duration` loop (line 559): the
condition is tested only between full passes. `fuel` bounds the
number of outer iterations we observe; `none` means the loop was
still running when the window closed. -/
def tileLoop (imgs : List String) (reqDur D : ℚ) :
    Nat → List (String × ℚ) × ℚ → Option (List (String × ℚ) × ℚ)
  | 0, acc => if acc.2 < D then none else some acc
  | f + 1, acc =>
      if acc.2 < D then tileLoop imgs reqDur D f (tilePass imgs reqDur acc)
      else some acc

/-- The duration bookkeeping of `Video.combine`: audio duration `D`
(`tts_clip.duration`, line 517), `req_dur = max_duration /
len(valid_images)` (line 540), the tiling loop, and the final clamp
`final_clip.set_duration(tts_clip.duration)` (line 631). -/
structure AssemblyOut where
  clips : List (String × ℚ)
  seqDur : ℚ
  finalDur : ℚ

/-- `Video.combine` duration pipeline on the image-success path. -/
def combineAssembly (D : ℚ) (imgs : List String) (fuel : Nat) :
    Option AssemblyOut :=
  let reqDur := D / (imgs.length : ℚ)
  match tileLoop imgs reqDur D fuel ([], 0) with
  | none => none
  | some (clips, tot) => some ⟨clips, tot, D⟩

/-- Closed form of one tiling pass. -/
theorem tilePass_eq (imgs : List String) (reqDur : ℚ)
    (cs : List (String × ℚ)) (t : ℚ) :
    tilePass imgs reqDur (cs, t)
      = (cs ++ imgs.map (fun i => (i, reqDur)),
         t + (imgs.length : ℚ) * reqDur) := by
  induction imgs generalizing cs t with
  | nil => simp [tilePass]
  | cons i tl ih =>
    simp only [tilePass, List.foldl_cons] at ih ⊢
    rw [ih, Prod.mk.injEq]
    constructor
    · simp
    · simp only [List.length_cons]
      push_cast
      ring

/-- Once the accumulated duration has reached `D`, the loop exits at
once with the accumulator, whatever fuel remains. -/
theorem tileLoop_exit (imgs : List String) (reqDur D : ℚ) (fuel : Nat)
    (acc : List (String × ℚ) × ℚ) (h : ¬ acc.2 < D) :
    tileLoop imgs reqDur D fuel acc = some acc := by
  cases fuel <;> simp [tileLoop, h]

/-- C4: for audio duration `D > 0` and a non-empty list of `n` valid
images, `combine` sets the per-image duration to `D / n`, one pass of
the tiling loop appends the whole image list in order and accumulates
exactly `n · (D / n) = D`, so the loop exits with sequence duration
`≥ D` (here exactly `D`), and the final duration is clamped to exactly
`D` — for every fuel allowance of at least one pass. -/
theorem assembly_covers_audio_and_clamps_exactly (D : ℚ)
    (imgs : List String) (fuel : Nat) (hD : 0 < D) (himgs : imgs ≠ []) :
    ∃ out, combineAssembly D imgs (fuel + 1) = some out ∧
      out.clips = imgs.map (fun i => (i, D / (imgs.length : ℚ))) ∧
      D ≤ out.seqDur ∧
      out.finalDur = D := by
  have hn : (imgs.length : ℚ) ≠ 0 := by
    have : imgs.length ≠ 0 := fun hc => himgs (List.length_eq_zero.mp hc)
    exact_mod_cast this
  have hpass : tilePass imgs (D / (imgs.length : ℚ)) ([], 0)
      = (imgs.map (fun i => (i, D / (imgs.length : ℚ))), D) := by
    rw [tilePass_eq]
    simp [mul_div_cancel₀ D hn]
  have hloop : tileLoop imgs (D / (imgs.length : ℚ)) D (fuel + 1) ([], 0)
      = some (imgs.map (fun i => (i, D / (imgs.length : ℚ))), D) := by
    simp only [tileLoop, hD, if_pos hD, hpass]
    exact tileLoop_exit _ _ _ _ _ (by simp)
  refine ⟨⟨imgs.map (fun i => (i, D / (imgs.length : ℚ))), D, D⟩, ?_, rfl,
    le_refl D, rfl⟩
  simp [combineAssembly, hloop]

/-- Witness for C4: three images over a 7-second narration, each shown
for 7/3 seconds. -/
theorem assembly_covers_audio_and_clamps_exactly_witness :
    ∃ out, combineAssembly 7 ["a.png", "b.png", "c.png"] 1 = some out ∧
      out.clips = (["a.png", "b.png", "c.png"] : List String).map
        (fun i => (i, (7 : ℚ) / ((["a.png", "b.png", "c.png"]
          : List String).length : ℚ))) ∧
      (7 : ℚ) ≤ out.seqDur ∧
      out.finalDur = 7 :=
  assembly_covers_audio_and_clamps_exactly 7 ["a.png", "b.png", "c.png"] 0
    (by norm_num) (by simp)

/-! ### Aspect normalization (`Video.combine`,
`src/classes/Video.py:566-580`) -/

/-- Python's `round` to the nearest integer, ties to the even integer
(banker's rounding). -/
def roundHalfEven (q : ℚ) : ℤ :=
  let f := ⌊q⌋
  let frac := q - (f : ℚ)
  if frac < 1 / 2 then f
  else if 1 / 2 < frac then f + 1
  else if f % 2 = 0 then f else f + 1

/-- Python's `round(x, 4)`: round to four decimal places (ties to
even), as exact rational arithmetic. -/
def pyRound4 (q : ℚ) : ℚ :=
  (roundHalfEven (q * 10000) : ℚ) / 10000

/-- The per-frame normalization decision of `Video.combine`: the crop
call selected for a `w × h` source image and the canvas it is scaled
to. `heightCropped` is the `round((clip.w/clip.h), 4) < 0.5625` branch
(line 568): `crop(width=clip.w, height=round(clip.w/0.5625), ...)`
keeping full width; the other branch (line 577) is
`crop(width=round(0.5625*clip.h), height=clip.h, ...)` keeping full
height. Both pass `x_center=clip.w/2, y_center=clip.h/2`, and the
result is `resize((1080, 1920))` (line 580). The float literal
`0.5625` is exactly `9/16` in binary, written `5625/10000` here. -/
structure FrameNorm where
  heightCropped : Bool
  cropSize : ℤ × ℤ
  cropCenter : ℚ × ℚ
  outSize : ℕ × ℕ

/-- Frame normalization for a `w × h` source image
(`src/classes/Video.py:566-580`). -/
def normalizeFrame (w h : ℕ) : FrameNorm :=
  if pyRound4 ((w : ℚ) / (h : ℚ)) < 5625 / 10000 then
    { heightCropped := true
      cropSize := ((w : ℤ), roundHalfEven ((w : ℚ) / (5625 / 10000)))
      cropCenter := ((w : ℚ) / 2, (h : ℚ) / 2)
      outSize := (1080, 1920) }
  else
    { heightCropped := false
      cropSize := (roundHalfEven ((5625 / 10000 : ℚ) * (h : ℚ)), (h : ℤ))
      cropCenter := ((w : ℚ) / 2, (h : ℚ) / 2)
      outSize := (1080, 1920) }

/-- C6 (counterexample): the source image `22499 × 40000` has
width/height ratio `0.562475`, strictly below `0.5625 = 9/16`, so the
claim requires the height-cropping branch; but the code compares the
ratio *rounded to 4 decimal places* (`round((clip.w/clip.h), 4)`,
line 568), which is exactly `0.5625`, so the width-cropping branch is
selected and the full height is kept. -/
theorem crop_branch_uses_rounded_ratio :
    ((22499 : ℚ) / 40000 < 5625 / 10000) ∧
    (normalizeFrame 22499 40000).heightCropped = false ∧
    (normalizeFrame 22499 40000).cropSize.2 = 40000 := by
  have hcond : ¬ (pyRound4 ((22499 : ℚ) / (40000 : ℚ)) < 5625 / 10000) := by
    norm_num [pyRound4, roundHalfEven]
  refine ⟨by norm_num, ?_, ?_⟩
  · simp [normalizeFrame, hcond]
  · simp [normalizeFrame, hcond]

/-- C6 (amended): the branch is chosen on the width/height ratio
rounded to four decimal places (Python banker's rounding): if that
rounded ratio is below 0.5625 the crop keeps the full width and crops
the height to `round(w/0.5625)`, otherwise it keeps the full height
and crops the width to `round(0.5625*h)`; both crops are centered at
`(w/2, h/2)`, and every output frame is scaled to the fixed
`1080 × 1920` portrait canvas. -/
theorem frame_normalization_rounded_branch (w h : ℕ) :
    ((normalizeFrame w h).heightCropped = true ↔
      pyRound4 ((w : ℚ) / (h : ℚ)) < 9 / 16) ∧
    ((normalizeFrame w h).heightCropped = true →
      (normalizeFrame w h).cropSize
        = ((w : ℤ), roundHalfEven ((w : ℚ) * 16 / 9))) ∧
    ((normalizeFrame w h).heightCropped = false →
      (normalizeFrame w h).cropSize
        = (roundHalfEven ((9 : ℚ) / 16 * (h : ℚ)), (h : ℤ))) ∧
    (normalizeFrame w h).cropCenter = ((w : ℚ) / 2, (h : ℚ) / 2) ∧
    (normalizeFrame w h).outSize = (1080, 1920) := by
  have hq : (5625 / 10000 : ℚ) = 9 / 16 := by norm_num
  have hdiv : ((w : ℚ) / (5625 / 10000)) = (w : ℚ) * 16 / 9 := by
    rw [hq, div_div_eq_mul_div]
  by_cases hbr : pyRound4 ((w : ℚ) / (h : ℚ)) < 5625 / 10000
  · refine ⟨?_, ?_, ?_, ?_, ?_⟩ <;>
      simp [normalizeFrame, hbr, hq ▸ hbr, hdiv]
  · have hbr' : ¬ pyRound4 ((w : ℚ) / (h : ℚ)) < 9 / 16 := by
      rw [← hq]
      exact hbr
    refine ⟨?_, ?_, ?_, ?_, ?_⟩ <;>
      simp [normalizeFrame, hbr, hbr', hq]

/-! ### Image-prompt acceptance parse (`Video.generate_prompts`,
`src/classes/Video.py:254-294`) -/

/-- Split a character list at the first occurrence of `pat`: the part
before the match and the part after it. -/
def splitFirst (pat : List Char) : List Char → Option (List Char × List Char)
  | [] => if pat = [] then some ([], []) else none
  | c :: rest =>
      if pat.isPrefixOf (c :: rest) then
        some ([], List.drop pat.length (c :: rest))
      else
        (splitFirst pat rest).map (fun pr => (c :: pr.1, pr.2))

/-- Replace every (non-overlapping, left-to-right) occurrence; the
fuel (always instantiated above the occurrence count) keeps the
recursion structural. -/
def replaceAllGo (pat repl : List Char) : Nat → List Char → List Char
  | 0, l => l
  | fuel + 1, l =>
      match splitFirst pat l with
      | none => l
      | some (pre, post) => pre ++ repl ++ replaceAllGo pat repl fuel post

/-- Python `s.replace(pat, repl)` for a non-empty `pat`: replace every
non-overlapping occurrence, scanning left to right. -/
def pyReplace (s pat repl : String) : String :=
  String.mk (replaceAllGo pat.data repl.data (s.data.length + 1) s.data)

/-- Python `pat in s` substring membership. -/
def containsSubstring : List Char → List Char → Bool
  | pat, [] => pat.isPrefixOf []
  | pat, c :: rest => pat.isPrefixOf (c :: rest) || containsSubstring pat rest

/-- Index of the last occurrence of `c` in `l`, if any. -/
def lastIdxOf (c : Char) (l : List Char) : Option Nat :=
  ((l.enum.filter (fun p => p.2 = c)).getLast?).map (·.1)

/-- `re.findall(r"\[.*\]", s)` (`src/classes/Video.py:272-273`): scan
left to right; at a `[`, the greedy `.*` (which cannot cross a
newline) extends the match to the last `]` on the same line, the whole
match — brackets included — is collected as one string, and scanning
resumes after it. Checked against CPython `re` on bracketed, nested,
multi-line and bracket-free inputs. -/
def bracketFindallGo : Nat → List Char → List String
  | 0, _ => []
  | _ + 1, [] => []
  | fuel + 1, c :: rest =>
      if c = '[' then
        match lastIdxOf ']' (rest.takeWhile (fun ch => ch ≠ '\n')) with
        | some j =>
            String.mk ('[' :: rest.take (j + 1))
              :: bracketFindallGo fuel (rest.drop (j + 1))
        | none => bracketFindallGo fuel rest
      else bracketFindallGo fuel rest

/-- `re.findall(r"\[.*\]", s)`. -/
def bracketFindall (l : List Char) : List String :=
  bracketFindallGo (l.length + 1) l

/-- A JSON value as produced by `json.loads` on the subset the
pipeline exchanges. -/
inductive Json where
  | null
  | bool : Bool → Json
  | num : ℚ → Json
  | str : String → Json
  | arr : List Json → Json
  | obj : List (String × Json) → Json

/-- JSON insignificant whitespace. -/
def skipWs : List Char → List Char
  | [] => []
  | c :: rest =>
      if c = ' ' ∨ c = '\t' ∨ c = '\n' ∨ c = '\r' then skipWs rest
      else c :: rest

/-- JSON string body after the opening quote, with the single-character
escapes; `\uXXXX` escapes are out of the modelled subset (none of the
pipeline's payloads under proof contain them) and fail the parse. -/
def parseJStr : Nat → List Char → Option (String × List Char)
  | 0, _ => none
  | _ + 1, [] => none
  | fuel + 1, c :: rest =>
      if c = '"' then some ("", rest)
      else if c = '\\' then
        match rest with
        | [] => none
        | e :: rest2 =>
            let dec : Option Char :=
              if e = '"' then some '"'
              else if e = '\\' then some '\\'
              else if e = '/' then some '/'
              else if e = 'n' then some '\n'
              else if e = 't' then some '\t'
              else if e = 'r' then some '\r'
              else if e = 'b' then some (Char.ofNat 8)
              else if e = 'f' then some (Char.ofNat 12)
              else none
            match dec with
            | some d =>
                (parseJStr fuel rest2).map
                  (fun p => (String.mk (d :: p.1.data), p.2))
            | none => none
      else
        (parseJStr fuel rest).map (fun p => (String.mk (c :: p.1.data), p.2))

/-- Decimal digit run to a natural number. -/
def digitsVal (l : List Char) : Nat :=
  l.foldl (fun a c => a * 10 + (c.toNat - 48)) 0

/-- JSON number: integer part and optional decimal fraction (exponent
notation is out of the modelled subset). -/
def parseNumCore (l1 : List Char) : Option (ℚ × List Char) :=
  let ip := l1.takeWhile Char.isDigit
  let r1 := l1.dropWhile Char.isDigit
  if ip = [] then none
  else
    match r1 with
    | '.' :: rr =>
        let fp := rr.takeWhile Char.isDigit
        let r2 := rr.dropWhile Char.isDigit
        if fp = [] then none
        else some ((digitsVal ip : ℚ)
          + (digitsVal fp : ℚ) / (10 : ℚ) ^ fp.length, r2)
    | _ => some ((digitsVal ip : ℚ), r1)

/-- JSON number with optional leading minus. -/
def parseNumber : List Char → Option (ℚ × List Char)
  | '-' :: r => (parseNumCore r).map (fun p => (-p.1, p.2))
  | l => parseNumCore l

mutual

/-- One JSON value, leading whitespace allowed; returns the rest of
the input. -/
def parseValue : Nat → List Char → Option (Json × List Char)
  | 0, _ => none
  | fuel + 1, l =>
      match skipWs l with
      | [] => none
      | c :: rest =>
          if c = '"' then
            (parseJStr (fuel + 1) rest).map (fun p => (Json.str p.1, p.2))
          else if c = '[' then
            match skipWs rest with
            | ']' :: r2 => some (Json.arr [], r2)
            | _ => (parseElems fuel rest).map (fun p => (Json.arr p.1, p.2))
          else if c = Char.ofNat 123 then
            match skipWs rest with
            | d :: r2 =>
                if d = Char.ofNat 125 then some (Json.obj [], r2)
                else (parseMembers fuel rest).map
                  (fun p => (Json.obj p.1, p.2))
            | [] => none
          else if ("true").data.isPrefixOf (c :: rest) then
            some (Json.bool true, (c :: rest).drop 4)
          else if ("false").data.isPrefixOf (c :: rest) then
            some (Json.bool false, (c :: rest).drop 5)
          else if ("null").data.isPrefixOf (c :: rest) then
            some (Json.null, (c :: rest).drop 4)
          else
            (parseNumber (c :: rest)).map (fun p => (Json.num p.1, p.2))

/-- Comma-separated array elements up to the closing bracket. -/
def parseElems : Nat → List Char → Option (List Json × List Char)
  | 0, _ => none
  | fuel + 1, l =>
      match parseValue fuel l with
      | none => none
      | some (v, r) =>
          match skipWs r with
          | ',' :: r2 =>
              (parseElems fuel r2).map (fun p => (v :: p.1, p.2))
          | ']' :: r2 => some ([v], r2)
          | _ => none

/-- Comma-separated `"key": value` members up to the closing brace. -/
def parseMembers : Nat → List Char → Option (List (String × Json) × List Char)
  | 0, _ => none
  | fuel + 1, l =>
      match skipWs l with
      | '"' :: r1 =>
          match parseJStr fuel r1 with
          | none => none
          | some (k, r2) =>
              match skipWs r2 with
              | ':' :: r3 =>
                  match parseValue fuel r3 with
                  | none => none
                  | some (v, r4) =>
                      match skipWs r4 with
                      | ',' :: r5 =>
                          (parseMembers fuel r5).map
                            (fun p => ((k, v) :: p.1, p.2))
                      | d :: r5 =>
                          if d = Char.ofNat 125 then some ([(k, v)], r5)
                          else none
                      | [] => none
              | _ => none
      | _ => none

end

/-- `json.loads`: `some` on a single well-formed JSON document (of the
modelled subset), `none` where CPython raises `JSONDecodeError`. -/
def jsonLoads (s : String) : Option Json :=
  match parseValue (s.data.length + 1) s.data with
  | some (v, rest) => if skipWs rest = [] then some v else none
  | none => none

/-- Python `d[k]` on a parsed JSON object (`json.loads` keeps the last
duplicate key). -/
def jsonObjGet (ms : List (String × Json)) (k : String) : Option Json :=
  ((ms.filter (fun p => p.1 = k)).getLast?).map (·.2)

/-- Outcome of the prompt-parsing portion of `generate_prompts`:
`ok v` binds `image_prompts` to the Python value `v`; `raised` is an
uncaught exception (it propagates to `generate_video`'s handler);
`retry` is the recursive `return self.generate_prompts()`. -/
inductive PromptParse where
  | ok : Json → PromptParse
  | raised : PromptParse
  | retry : PromptParse

/-- The parsing portion of `Video.generate_prompts`
(`src/classes/Video.py:254-277`): strip code fences (lines 254-256);
if the substring `"image_prompts"` occurs in the completion, run
`json.loads(completion)["image_prompts"]` — raising on a parse error,
a non-object result, or a missing key (lines 260-261); otherwise try
`json.loads(completion)` whole (line 264); on exception, fall back to
`re.findall(r"\[.*\]", completion)` and use the list of raw matched
substrings as `image_prompts`, retrying from scratch only if there is
no match at all (lines 271-277). -/
def generatePromptsParse (raw : String) : PromptParse :=
  let completion := pyReplace (pyReplace raw "```json" "") "```" ""
  if containsSubstring ("image_prompts").data completion.data then
    match jsonLoads completion with
    | some (Json.obj ms) =>
        match jsonObjGet ms "image_prompts" with
        | some v => PromptParse.ok v
        | none => PromptParse.raised
    | some _ => PromptParse.raised
    | none => PromptParse.raised
  else
    match jsonLoads completion with
    | some v => PromptParse.ok v
    | none =>
        let ms := bracketFindall completion.data
        if ms.length = 0 then PromptParse.retry
        else PromptParse.ok (Json.arr (ms.map Json.str))

example : jsonLoads "[\"a\", \"b\"]"
    = some (Json.arr [Json.str "a", Json.str "b"]) := by rfl

example : jsonLoads "Here you go: [\"a\",\"b\",\"c\"]" = none := by rfl

example : bracketFindall ("[a]\n[b]").data = ["[a]", "[b]"] := by rfl

example : generatePromptsParse "\x7b\"image_prompts\": [\"a\",\"b\"]\x7d"
    = PromptParse.ok (Json.arr [Json.str "a", Json.str "b"]) := by rfl

example : generatePromptsParse "no list in sight" = PromptParse.retry := by
  rfl

/-- C2: evaluating `generate_prompts`'s acceptance parse at the
claim's own example input. The raw output contains no
`"image_prompts"` substring and is not valid JSON, so the
bracket-extraction fallback runs; but the code uses the regex matches
themselves as the prompt list — `re.findall` returns the matched
substrings and line 273 never JSON-parses them — so the result is the
ONE-element list holding the raw string `["a","b","c"]` (brackets and
quotes included), not the three-element list `["a","b","c"]` the claim
(and the code's own comment, "Get everything between [ and ], and turn
it into a list") promises. -/
theorem prompts_fallback_returns_raw_match_not_parsed_list :
    generatePromptsParse "Here you go: [\"a\",\"b\",\"c\"]"
      = PromptParse.ok (Json.arr [Json.str "[\"a\",\"b\",\"c\"]"]) ∧
    Json.arr [Json.str "[\"a\",\"b\",\"c\"]"]
      ≠ Json.arr [Json.str "a", Json.str "b", Json.str "c"] := by
  constructor
  · rfl
  · intro h
    simp at h

end AutoBusiness
